import Mathlib

-- Verification of the gameplay simulation layer of the "Sky Over Kharkiv"
-- arcade game (src/main.c): equation generation, drone spawn waves,
-- the drone/projectile state machines and the hit-resolution and scoring
-- rules.  C float arithmetic is embedded as exact rational arithmetic; the
-- Euclidean-distance hit test sqrt(dx^2+dy^2) < r is embedded in the
-- equivalent squared form dx^2+dy^2 < r^2 (both sides are nonnegative).
-- rand() is embedded as an explicit stream rng : Nat -> Nat consumed at an
-- index that is threaded through each operation in the same order as the
-- C code calls rand().

set_option maxHeartbeats 1000000

namespace Sky

-- Constants from src/main.c

def MAX_DRONES : Nat := 15
def MAX_PROJECTILES : Nat := 10
def INITIAL_AMMO : Int := 10
def SHOT_COST : Int := 2
def HIT_REWARD : Int := 3
def SCORE_CORRECT_HIT : Int := 10
def SCORE_WRONG_HIT : Int := -5
def MAX_AMMO : Int := 20

def DRONE_SPEED : ℚ := 70
def DRONE_FALL_SPEED : ℚ := 150
def DRONE_FALL_HORIZONTAL_MULTIPLIER : ℚ := 1/2
def PROJECTILE_HIT_RADIUS : ℚ := 3/10
def PROJECTILE_MAX_LIFETIME : ℚ := 2
def DRONE_SCALE : ℚ := 2
def DRONE_TEXTURE_SIZE : ℚ := 100
def GROUND_LEVEL : ℚ := 394
def GROUND_EXPLOSION_OFFSET : ℚ := 200
def NEAR_GROUND_LEVEL : ℚ := 494
def DRONE_SPAWN_X : ℚ := 1200
def DRONE_SPAWN_SPACING : ℚ := 150
def DRONE_SPAWN_Y_MIN : ℚ := 80
def DRONE_SPAWN_Y_RANGE : Nat := 250
def DRONE_MIN_COUNT : Nat := 2
def DRONE_MAX_COUNT : Nat := 2
def EXPLOSION_DURATION : ℚ := 3/10
def OFF_SCREEN_LEFT : ℚ := -150
def OFF_SCREEN_RIGHT : ℚ := 1200
def OFF_SCREEN_TOP : ℚ := -10
def OFF_SCREEN_BOTTOM : ℚ := 750
def DRONE_LEFT_BOUNDARY : ℚ := 100

-- Data model (src/main.c types DroneState, Drone, Projectile, MathEquation)

inductive DroneState
  | flying
  | exploding
  | falling
  | dead
  deriving DecidableEq

structure Drone where
  posX : ℚ
  posY : ℚ
  answer : Int
  isShahed : Bool
  state : DroneState
  animTimer : ℚ
  active : Bool
  deriving DecidableEq

structure Projectile where
  posX : ℚ
  posY : ℚ
  velX : ℚ
  velY : ℚ
  active : Bool
  lifetime : ℚ
  targetDroneIndex : Int
  deriving DecidableEq

-- The decomposed-string / parts fields of the C MathEquation are pure
-- presentation (CreateDecomposedEquation) and never feed back into the
-- gameplay logic, so they are not modelled.
structure MathEquation where
  num1 : Int
  num2 : Int
  operation : Char
  correctAnswer : Int
  deriving DecidableEq

-- The ammo/score/shahedActive variables of main() together with the drone
-- pool, as mutated by UpdateProjectiles.
structure TickState where
  drones : List Drone
  ammo : Int
  score : Int
  shahedActive : Bool
  deriving DecidableEq

-- Drone pool helpers

def isFlyingActive (d : Drone) : Bool :=
  d.active && decide (d.state = DroneState.flying)

def isFlyingShahed (d : Drone) : Bool :=
  d.active && decide (d.state = DroneState.flying) && d.isShahed

def flyingShahedCount (ds : List Drone) : Nat :=
  (ds.filter isFlyingShahed).length

-- the answers collected from active Flying drones in SpawnDrones (existingAnswers[])
def existingAnswers (ds : List Drone) : List Int :=
  (ds.filter isFlyingActive).map Drone.answer

-- first scan of SpawnDrones: mark a Flying drone matching the new correct
-- answer as Shahed, un-mark the rest
def promoteExisting (correct : Int) (ds : List Drone) : List Drone :=
  ds.map fun d =>
    if isFlyingActive d then { d with isShahed := decide (d.answer = correct) } else d

def foundExistingShahed (correct : Int) (ds : List Drone) : Bool :=
  ds.any fun d => isFlyingActive d && decide (d.answer = correct)

-- Decoy answer generation (inner do-while of SpawnDrones):
--   offset = (rand() % 20) - 10; if (offset == 0) offset = 5;
def decoyOffset (r : Nat) : Int :=
  let o : Int := (r % 20 : Int) - 10
  if o = 0 then 5 else o

-- the bounded rejection loop; fuel is the number of re-rolls still allowed,
-- SpawnDrones calls it with fuel = 49 (50 candidate draws total, matching
-- the C bound of 50 attempts).  Returns (answer, next rand index).
def genDecoyAux (rng : Nat → Nat) (correct : Int) (bad : List Int) :
    Nat → Nat → Int × Nat
  | 0, k => (correct + decoyOffset (rng k), k + 1)
  | fuel + 1, k =>
    let a := correct + decoyOffset (rng k)
    if a ∈ bad then genDecoyAux rng correct bad fuel (k + 1) else (a, k + 1)

-- the answers[] filling loop of SpawnDrones
def genAnswersAux (rng : Nat → Nat) (correct : Int) (existing : List Int)
    (correctIndex : Int) : Nat → Nat → Nat → List Int → List Int × Nat
  | 0, _, k, acc => (acc, k)
  | n + 1, i, k, acc =>
    if (i : Int) = correctIndex then
      genAnswersAux rng correct existing correctIndex n (i + 1) k (acc ++ [correct])
    else
      let res := genDecoyAux rng correct (existing ++ acc) 49 k
      genAnswersAux rng correct existing correctIndex n (i + 1) res.2 (acc ++ [res.1])

def newDrone (x y : ℚ) (ans : Int) (sh : Bool) : Drone :=
  { posX := x
    posY := y
    answer := ans
    isShahed := sh
    state := DroneState.flying
    animTimer := 0
    active := true }

-- the free-slot filling loop of SpawnDrones; s is the spawned counter
def spawnInto (rng : Nat → Nat) (answers : List Int) (correctIndex : Int) :
    List Drone → Nat → Nat → List Drone × Nat × Nat
  | [], s, k => ([], s, k)
  | d :: ds, s, k =>
    if s < answers.length ∧ (d.active = false ∨ d.state = DroneState.dead) then
      let nd := newDrone (DRONE_SPAWN_X + (s : ℚ) * DRONE_SPAWN_SPACING)
        (DRONE_SPAWN_Y_MIN + ((rng k % DRONE_SPAWN_Y_RANGE : Nat) : ℚ))
        (answers.getD s 0) (decide ((s : Int) = correctIndex))
      let rest := spawnInto rng answers correctIndex ds (s + 1) (k + 1)
      (nd :: rest.1, rest.2)
    else
      let rest := spawnInto rng answers correctIndex ds s k
      (d :: rest.1, rest.2)

-- SpawnDrones(drones, eq, activeDroneCount); returns the new pool, the
-- spawned count and the next rand index.
def SpawnDrones (rng : Nat → Nat) (k : Nat) (correct : Int) (ds : List Drone) :
    List Drone × Nat × Nat :=
  let numDrones :=
    min (DRONE_MIN_COUNT + rng k % (DRONE_MAX_COUNT - DRONE_MIN_COUNT + 1)) MAX_DRONES
  let k1 := k + 1
  let ds1 := promoteExisting correct ds
  let exist := existingAnswers ds
  let found := foundExistingShahed correct ds
  let ciK : Int × Nat :=
    if found = true then (-1, k1) else (((rng k1 % numDrones : Nat) : Int), k1 + 1)
  let ansK := genAnswersAux rng correct exist ciK.1 numDrones 0 ciK.2 []
  spawnInto rng ansK.1 ciK.1 ds1 0 ansK.2

-- UpdateDrones: per-drone state machine step

def stepDrone (dt : ℚ) (d : Drone) : Drone :=
  if d.active = false then d
  else
    match d.state with
    | DroneState.flying =>
      let d1 := { d with posX := d.posX - DRONE_SPEED * dt }
      if d1.isShahed = true ∧ d1.posX < DRONE_LEFT_BOUNDARY then
        { d1 with state := DroneState.falling, animTimer := 0 }
      else if d1.posX < OFF_SCREEN_LEFT then { d1 with active := false }
      else d1
    | DroneState.exploding =>
      let d1 := { d with animTimer := d.animTimer + dt }
      if EXPLOSION_DURATION < d1.animTimer then { d1 with state := DroneState.dead } else d1
    | DroneState.falling =>
      let d1 :=
        { d with
          animTimer := d.animTimer + dt
          posX := d.posX - DRONE_SPEED * DRONE_FALL_HORIZONTAL_MULTIPLIER * dt
          posY := d.posY + DRONE_FALL_SPEED * dt }
      if d1.isShahed = true ∧ GROUND_LEVEL ≤ d1.posY then
        { d1 with
          state := DroneState.exploding
          animTimer := 0
          posY := d1.posY + GROUND_EXPLOSION_OFFSET }
      else if NEAR_GROUND_LEVEL ≤ d1.posY ∨ d1.posX < OFF_SCREEN_LEFT then
        { d1 with state := DroneState.dead }
      else d1
    | DroneState.dead => { d with active := false }

def UpdateDrones (dt : ℚ) (ds : List Drone) : List Drone := ds.map (stepDrone dt)

-- UpdateProjectiles: per-projectile motion, collision and expiry

def moveProjectile (dt : ℚ) (p : Projectile) : Projectile :=
  { p with
    posX := p.posX + p.velX * dt
    posY := p.posY + p.velY * dt
    lifetime := p.lifetime + dt }

def droneCenterX (d : Drone) : ℚ := d.posX + DRONE_TEXTURE_SIZE * DRONE_SCALE / 2
def droneCenterY (d : Drone) : ℚ := d.posY + DRONE_TEXTURE_SIZE * DRONE_SCALE / 2

-- C: distance < bounds.width * PROJECTILE_HIT_RADIUS, with
-- distance = sqrt(dx*dx + dy*dy); embedded squared.
def projHits (p : Projectile) (d : Drone) : Bool :=
  let dx := p.posX - droneCenterX d
  let dy := p.posY - droneCenterY d
  let r := DRONE_TEXTURE_SIZE * DRONE_SCALE * PROJECTILE_HIT_RADIUS
  decide (dx * dx + dy * dy < r * r)

-- the damage-effects block guarded by state == DRONE_FLYING
def resolveHit (st : TickState) (idx : Nat) (d : Drone) : TickState :=
  if d.state = DroneState.flying then
    if d.isShahed = true then
      let a := st.ammo + HIT_REWARD
      { st with
        drones := st.drones.set idx { d with state := DroneState.exploding, animTimer := 0 }
        ammo := if MAX_AMMO < a then MAX_AMMO else a
        score := st.score + SCORE_CORRECT_HIT
        shahedActive := false }
    else
      { st with
        drones := st.drones.set idx { d with state := DroneState.falling, animTimer := 0 }
        score := st.score + SCORE_WRONG_HIT }
  else st

def collideStep (st : TickState) (p : Projectile) : TickState × Projectile :=
  let idx := p.targetDroneIndex
  if 0 ≤ idx ∧ idx < (MAX_DRONES : Int) then
    match st.drones.get? idx.toNat with
    | some d =>
      if d.active = true ∧ (d.state = DroneState.flying ∨ d.state = DroneState.exploding) then
        if projHits p d = true then
          (resolveHit st idx.toNat d, { p with active := false })
        else (st, p)
      else (st, p)
    | none => (st, p)
  else (st, p)

def expireProjectile (p : Projectile) : Projectile :=
  if p.posX < OFF_SCREEN_TOP ∨ OFF_SCREEN_RIGHT < p.posX ∨ p.posY < OFF_SCREEN_TOP ∨
      OFF_SCREEN_BOTTOM < p.posY ∨ PROJECTILE_MAX_LIFETIME < p.lifetime then
    { p with active := false }
  else p

def stepProjectile (dt : ℚ) (st : TickState) (p : Projectile) : TickState × Projectile :=
  if p.active = true then
    let p1 := moveProjectile dt p
    let r := collideStep st p1
    (r.1, expireProjectile r.2)
  else (st, p)

def UpdateProjectiles (dt : ℚ) (ps : List Projectile) (st : TickState) :
    List Projectile × TickState :=
  match ps with
  | [] => ([], st)
  | p :: rest =>
    let r := stepProjectile dt st p
    let rr := UpdateProjectiles dt rest r.1
    (r.2 :: rr.1, rr.2)

-- GenerateNewEquation

def isTrivialEq (e : MathEquation) : Bool :=
  (decide (e.operation = '+') && (decide (e.num1 = 0) || decide (e.num2 = 0))) ||
  (decide (e.operation = '-') && decide (e.num2 = 0))

def duplicateAnswer (e : MathEquation) (ds : List Drone) : Bool :=
  ds.any fun d => isFlyingActive d && decide (d.answer = e.correctAnswer)

-- one candidate draw of the do-while body; always reads exactly three
-- rand values (opType, then two operand rolls)
def genOnce (rng : Nat → Nat) (level : Nat) (allowNegative : Bool) (k : Nat) :
    MathEquation × Nat :=
  let opType : Nat :=
    if level = 1 then rng k % 2 else if level = 2 then rng k % 3 else rng k % 4
  let r1 := rng (k + 1)
  let r2 := rng (k + 2)
  let e : MathEquation :=
    if opType = 0 then
      let n1 : Int := if level = 1 then 1 + ((r1 % 20 : Nat) : Int) else 5 + ((r1 % 45 : Nat) : Int)
      let n2 : Int := if level = 1 then 1 + ((r2 % 20 : Nat) : Int) else 5 + ((r2 % 45 : Nat) : Int)
      { num1 := n1, num2 := n2, operation := '+', correctAnswer := n1 + n2 }
    else if opType = 1 then
      if allowNegative = true then
        let n1 : Int := if level = 1 then ((r1 % 21 : Nat) : Int) else ((r1 % 80 : Nat) : Int)
        let n2 : Int := if level = 1 then ((r2 % 21 : Nat) : Int) else ((r2 % 80 : Nat) : Int)
        { num1 := n1, num2 := n2, operation := '-', correctAnswer := n1 - n2 }
      else
        if level = 1 then
          let n1 : Nat := r1 % 21
          let n2 : Nat := r2 % (n1 + 1)
          { num1 := (n1 : Int), num2 := (n2 : Int), operation := '-',
            correctAnswer := (n1 : Int) - (n2 : Int) }
        else
          let n1 : Nat := 20 + r1 % 60
          let n2 : Nat := 5 + r2 % (n1 - 4)
          { num1 := (n1 : Int), num2 := (n2 : Int), operation := '-',
            correctAnswer := (n1 : Int) - (n2 : Int) }
    else if opType = 2 then
      let n1 : Int := 2 + ((r1 % 12 : Nat) : Int)
      let n2 : Int := 2 + ((r2 % 12 : Nat) : Int)
      { num1 := n1, num2 := n2, operation := '*', correctAnswer := n1 * n2 }
    else
      let ans : Int := 2 + ((r1 % 10 : Nat) : Int)
      let n2 : Int := 2 + ((r2 % 9 : Nat) : Int)
      { num1 := ans * n2, num2 := n2, operation := '/', correctAnswer := ans }
  (e, k + 3)

def badEquation (ds : List Drone) (e : MathEquation) : Bool :=
  isTrivialEq e || duplicateAnswer e ds

-- the bounded do-while; fuel is the number of conditional retries left.
-- The C loop runs its body at most 21 times (attempts 1..21; the check
-- `attempts > 20` breaks out of the 21st unconditionally), which matches
-- fuel = 20 retries after the first draw.
def genEquationLoop (rng : Nat → Nat) (level : Nat) (allowNegative : Bool) (ds : List Drone) :
    Nat → Nat → MathEquation × Nat
  | 0, k => genOnce rng level allowNegative k
  | fuel + 1, k =>
    let r := genOnce rng level allowNegative k
    if badEquation ds r.1 = true then
      genEquationLoop rng level allowNegative ds fuel r.2
    else r

def GenerateNewEquation (rng : Nat → Nat) (level : Nat) (ds : List Drone)
    (allowNegative : Bool) (k : Nat) : MathEquation × Nat :=
  genEquationLoop rng level allowNegative ds 20 k

-- the fire guard of main(): `ammo >= SHOT_COST` then `ammo -= SHOT_COST`
def tryFire (ammo : Int) : Option Int :=
  if SHOT_COST ≤ ammo then some (ammo - SHOT_COST) else none

-- Reachable ammo values of the game loop: the initial value, a shot
-- (guarded deduction), a projectile-update tick over arbitrary pools, and
-- the restart reset are the only operations in main.c that write ammo.
-- Concrete states used in scenario and counterexample theorems

-- an unoccupied pool slot
def freeSlot : Drone :=
  { posX := 0
    posY := 0
    answer := 0
    isShahed := false
    state := DroneState.flying
    animTimer := 0
    active := false }

-- a Flying non-target drone displaying 15
def cexDrone15 : Drone :=
  { posX := 600
    posY := 200
    answer := 15
    isShahed := false
    state := DroneState.flying
    animTimer := 0
    active := true }

-- two Flying drones both displaying 15 (possible after decoy-retry exhaustion)
def cexPool : List Drone := [cexDrone15, { cexDrone15 with posX := 800 }]

-- the current wave's target drone, center (1100, 200)
def targetDrone42 : Drone :=
  { posX := 1000
    posY := 100
    answer := 42
    isShahed := true
    state := DroneState.flying
    animTimer := 0
    active := true }

-- a wrong (decoy) drone at the same place
def decoyDrone32 : Drone := { targetDrone42 with answer := 32, isShahed := false }

-- a projectile in flight toward slot 0; after dt = 1/100 it is at (1080, 200),
-- 20 units from the drone center, inside the 60-unit hit radius
def volleyProjectile : Projectile :=
  { posX := 1050
    posY := 200
    velX := 3000
    velY := 0
    active := true
    lifetime := 0
    targetDroneIndex := 0 }

-- a second projectile of the same volley, slightly behind the first
def volleyProjectile2 : Projectile := { volleyProjectile with posX := 1040 }

-- an in-flight projectile that outlived its original target at slot 0
def staleProjectile : Projectile :=
  { posX := 1190
    posY := 180
    velX := 3000
    velY := 0
    active := true
    lifetime := 1/10
    targetDroneIndex := 0 }

def rngC7 : Nat → Nat := fun n => if n = 1 then 1 else 0
def rngDiv : Nat → Nat := fun _ => 3
def rngExhaust : Nat → Nat := fun n => if n % 3 = 0 then 1 else 0
def rngId : Nat → Nat := fun n => n

-- the pool after the original target in slot 0 died (slot freed) and a new
-- wave was spawned: slot 0 is reused by a fresh decoy drone showing 32
def c7pool : List Drone := (SpawnDrones rngC7 0 42 (List.replicate 15 freeSlot)).1

-- the drone now occupying slot 0, which staleProjectile still references
def c7drone : Drone := c7pool.getD 0 freeSlot

inductive GameReach : Int → Prop
  | init : GameReach INITIAL_AMMO
  | fire : ∀ {a : Int}, GameReach a → SHOT_COST ≤ a → GameReach (a - SHOT_COST)
  | tick : ∀ {a : Int} (dt : ℚ) (ps : List Projectile) (ds : List Drone) (sc : Int) (sa : Bool),
      GameReach a →
      GameReach (UpdateProjectiles dt ps
        { drones := ds, ammo := a, score := sc, shahedActive := sa }).2.ammo
  | restart : ∀ {a : Int}, GameReach a → GameReach INITIAL_AMMO

end Sky

namespace Sky

-- Helper lemmas about the projectile step

theorem moveProjectile_target (dt : ℚ) (p : Projectile) :
    (moveProjectile dt p).targetDroneIndex = p.targetDroneIndex := rfl

theorem projHits_stateUpdate (p : Projectile) (d : Drone) (s : DroneState) (t : ℚ) :
    projHits p { d with state := s, animTimer := t } = projHits p d := rfl

theorem expireProjectile_active_false (p : Projectile) (h : p.active = false) :
    (expireProjectile p).active = false := by
  unfold expireProjectile
  split_ifs <;> simp [h]

theorem capAmmo (a : Int) :
    (if MAX_AMMO < a + HIT_REWARD then MAX_AMMO else a + HIT_REWARD) =
      min (a + HIT_REWARD) MAX_AMMO := by
  simp only [MAX_AMMO, HIT_REWARD, Int.min_def]
  split_ifs <;> omega

theorem stepProjectile_correct_hit (dt : ℚ) (st : TickState) (p : Projectile) (d : Drone)
    (hp : p.active = true)
    (h0 : 0 ≤ p.targetDroneIndex) (h15 : p.targetDroneIndex < (MAX_DRONES : Int))
    (hd : st.drones.get? p.targetDroneIndex.toNat = some d)
    (hact : d.active = true) (hfly : d.state = DroneState.flying) (hsh : d.isShahed = true)
    (hhit : projHits (moveProjectile dt p) d = true) :
    (stepProjectile dt st p).1 =
      { drones := st.drones.set p.targetDroneIndex.toNat
          { d with state := DroneState.exploding, animTimer := 0 }
        ammo := min (st.ammo + HIT_REWARD) MAX_AMMO
        score := st.score + SCORE_CORRECT_HIT
        shahedActive := false } ∧
    (stepProjectile dt st p).2.active = false := by
  have hd2 : st.drones[p.targetDroneIndex.toNat]? = some d := by
    rw [← List.get?_eq_getElem?]
    exact hd
  have hr : collideStep st (moveProjectile dt p) =
      (resolveHit st p.targetDroneIndex.toNat d,
        { moveProjectile dt p with active := false }) := by
    simp [collideStep, moveProjectile_target, h0, h15, hd2, hact, hfly, hhit]
  have hres : resolveHit st p.targetDroneIndex.toNat d =
      { drones := st.drones.set p.targetDroneIndex.toNat
          { d with state := DroneState.exploding, animTimer := 0 }
        ammo := min (st.ammo + HIT_REWARD) MAX_AMMO
        score := st.score + SCORE_CORRECT_HIT
        shahedActive := false } := by
    simp [resolveHit, hfly, hsh, capAmmo]
  constructor
  · simp [stepProjectile, hp, hr, hres]
  · simp [stepProjectile, hp, hr]
    exact expireProjectile_active_false _ rfl

theorem stepProjectile_wrong_hit (dt : ℚ) (st : TickState) (p : Projectile) (d : Drone)
    (hp : p.active = true)
    (h0 : 0 ≤ p.targetDroneIndex) (h15 : p.targetDroneIndex < (MAX_DRONES : Int))
    (hd : st.drones.get? p.targetDroneIndex.toNat = some d)
    (hact : d.active = true) (hfly : d.state = DroneState.flying) (hsh : d.isShahed = false)
    (hhit : projHits (moveProjectile dt p) d = true) :
    (stepProjectile dt st p).1 =
      { drones := st.drones.set p.targetDroneIndex.toNat
          { d with state := DroneState.falling, animTimer := 0 }
        ammo := st.ammo
        score := st.score + SCORE_WRONG_HIT
        shahedActive := st.shahedActive } ∧
    (stepProjectile dt st p).2.active = false := by
  have hd2 : st.drones[p.targetDroneIndex.toNat]? = some d := by
    rw [← List.get?_eq_getElem?]
    exact hd
  have hr : collideStep st (moveProjectile dt p) =
      (resolveHit st p.targetDroneIndex.toNat d,
        { moveProjectile dt p with active := false }) := by
    simp [collideStep, moveProjectile_target, h0, h15, hd2, hact, hfly, hhit]
  have hres : resolveHit st p.targetDroneIndex.toNat d =
      { drones := st.drones.set p.targetDroneIndex.toNat
          { d with state := DroneState.falling, animTimer := 0 }
        ammo := st.ammo
        score := st.score + SCORE_WRONG_HIT
        shahedActive := st.shahedActive } := by
    simp [resolveHit, hfly, hsh]
  constructor
  · simp [stepProjectile, hp, hr, hres]
  · simp [stepProjectile, hp, hr]
    exact expireProjectile_active_false _ rfl

theorem stepProjectile_exploding_noop (dt : ℚ) (st : TickState) (p : Projectile) (d : Drone)
    (hp : p.active = true)
    (h0 : 0 ≤ p.targetDroneIndex) (h15 : p.targetDroneIndex < (MAX_DRONES : Int))
    (hd : st.drones.get? p.targetDroneIndex.toNat = some d)
    (hact : d.active = true) (hexp : d.state = DroneState.exploding)
    (hhit : projHits (moveProjectile dt p) d = true) :
    (stepProjectile dt st p).1 = st ∧
    (stepProjectile dt st p).2.active = false := by
  have hd2 : st.drones[p.targetDroneIndex.toNat]? = some d := by
    rw [← List.get?_eq_getElem?]
    exact hd
  have hr : collideStep st (moveProjectile dt p) =
      (resolveHit st p.targetDroneIndex.toNat d,
        { moveProjectile dt p with active := false }) := by
    simp [collideStep, moveProjectile_target, h0, h15, hd2, hact, hexp, hhit]
  have hres : resolveHit st p.targetDroneIndex.toNat d = st := by
    simp [resolveHit, hexp]
  constructor
  · simp [stepProjectile, hp, hr, hres]
  · simp [stepProjectile, hp, hr]
    exact expireProjectile_active_false _ rfl

/-- Claim C1: when a projectile collides with its target drone while that
drone is Flying and is the target (isShahed), the drone transitions to
Exploding, ammo is increased by HIT_REWARD but capped at MAX_AMMO, score is
increased by SCORE_CORRECT_HIT, and the wave is marked resolved
(shahedActive becomes false); combined with the SHOT_COST deducted at fire
time, firing at the correct drone with ammo 10 leaves post-resolution
ammo 10 - 2 + 3 = 11 and score increased by SCORE_CORRECT_HIT. -/
theorem correct_hit_resolution :
    (∀ (dt : ℚ) (st : TickState) (p : Projectile) (d : Drone),
      p.active = true → 0 ≤ p.targetDroneIndex → p.targetDroneIndex < (MAX_DRONES : Int) →
      st.drones.get? p.targetDroneIndex.toNat = some d →
      d.active = true → d.state = DroneState.flying → d.isShahed = true →
      projHits (moveProjectile dt p) d = true →
      (stepProjectile dt st p).1 =
        { drones := st.drones.set p.targetDroneIndex.toNat
            { d with state := DroneState.exploding, animTimer := 0 }
          ammo := min (st.ammo + HIT_REWARD) MAX_AMMO
          score := st.score + SCORE_CORRECT_HIT
          shahedActive := false }) ∧
    tryFire 10 = some 8 ∧
    (UpdateProjectiles (1/100) [volleyProjectile]
        { drones := [targetDrone42], ammo := 8, score := 0, shahedActive := true }).2 =
      { drones := [{ targetDrone42 with state := DroneState.exploding, animTimer := 0 }]
        ammo := 11
        score := SCORE_CORRECT_HIT
        shahedActive := false } := by
  refine ⟨?_, by decide, ?_⟩
  · intro dt st p d hp h0 h15 hd hact hfly hsh hhit
    exact (stepProjectile_correct_hit dt st p d hp h0 h15 hd hact hfly hsh hhit).1
  · have hhit : projHits (moveProjectile (1/100) volleyProjectile) targetDrone42 = true := by
      norm_num [projHits, moveProjectile, volleyProjectile, targetDrone42, droneCenterX,
        droneCenterY, DRONE_TEXTURE_SIZE, DRONE_SCALE, PROJECTILE_HIT_RADIUS]
    have h := (stepProjectile_correct_hit (1/100)
      { drones := [targetDrone42], ammo := 8, score := 0, shahedActive := true }
      volleyProjectile targetDrone42 rfl (by decide) (by decide) rfl rfl rfl rfl hhit).1
    have hu : (UpdateProjectiles (1/100) [volleyProjectile]
        { drones := [targetDrone42], ammo := 8, score := 0, shahedActive := true }).2 =
      (stepProjectile (1/100)
        { drones := [targetDrone42], ammo := 8, score := 0, shahedActive := true }
        volleyProjectile).1 := rfl
    rw [hu, h]
    norm_num [volleyProjectile, List.set, MAX_AMMO, HIT_REWARD, SCORE_CORRECT_HIT]

theorem correct_hit_resolution_witness :
    (stepProjectile (1/100)
        { drones := [targetDrone42], ammo := 8, score := 0, shahedActive := true }
        volleyProjectile).1 =
      { drones := [targetDrone42].set 0
          { targetDrone42 with state := DroneState.exploding, animTimer := 0 }
        ammo := min (8 + HIT_REWARD) MAX_AMMO
        score := 0 + SCORE_CORRECT_HIT
        shahedActive := false } :=
  correct_hit_resolution.1 (1/100)
    { drones := [targetDrone42], ammo := 8, score := 0, shahedActive := true }
    volleyProjectile targetDrone42 rfl (by decide) (by decide) rfl rfl rfl rfl
    (by norm_num [projHits, moveProjectile, volleyProjectile, targetDrone42, droneCenterX,
      droneCenterY, DRONE_TEXTURE_SIZE, DRONE_SCALE, PROJECTILE_HIT_RADIUS])

/-- Claim C3: when a projectile collides with its target drone while that
drone is Flying and is not the target, the drone transitions to Falling
(not Exploding), SCORE_WRONG_HIT (negative) is added to the score (so from
score 0 the score becomes SCORE_WRONG_HIT), and ammo is not increased. -/
theorem wrong_hit_resolution :
    (∀ (dt : ℚ) (st : TickState) (p : Projectile) (d : Drone),
      p.active = true → 0 ≤ p.targetDroneIndex → p.targetDroneIndex < (MAX_DRONES : Int) →
      st.drones.get? p.targetDroneIndex.toNat = some d →
      d.active = true → d.state = DroneState.flying → d.isShahed = false →
      projHits (moveProjectile dt p) d = true →
      (stepProjectile dt st p).1 =
        { drones := st.drones.set p.targetDroneIndex.toNat
            { d with state := DroneState.falling, animTimer := 0 }
          ammo := st.ammo
          score := st.score + SCORE_WRONG_HIT
          shahedActive := st.shahedActive }) ∧
    SCORE_WRONG_HIT < 0 ∧
    (UpdateProjectiles (1/100) [volleyProjectile]
        { drones := [decoyDrone32], ammo := 8, score := 0, shahedActive := true }).2 =
      { drones := [{ decoyDrone32 with state := DroneState.falling, animTimer := 0 }]
        ammo := 8
        score := SCORE_WRONG_HIT
        shahedActive := true } := by
  refine ⟨?_, by decide, ?_⟩
  · intro dt st p d hp h0 h15 hd hact hfly hsh hhit
    exact (stepProjectile_wrong_hit dt st p d hp h0 h15 hd hact hfly hsh hhit).1
  · have hhit : projHits (moveProjectile (1/100) volleyProjectile) decoyDrone32 = true := by
      norm_num [projHits, moveProjectile, volleyProjectile, decoyDrone32, targetDrone42,
        droneCenterX, droneCenterY, DRONE_TEXTURE_SIZE, DRONE_SCALE, PROJECTILE_HIT_RADIUS]
    have h := (stepProjectile_wrong_hit (1/100)
      { drones := [decoyDrone32], ammo := 8, score := 0, shahedActive := true }
      volleyProjectile decoyDrone32 rfl (by decide) (by decide) rfl rfl rfl rfl hhit).1
    have hu : (UpdateProjectiles (1/100) [volleyProjectile]
        { drones := [decoyDrone32], ammo := 8, score := 0, shahedActive := true }).2 =
      (stepProjectile (1/100)
        { drones := [decoyDrone32], ammo := 8, score := 0, shahedActive := true }
        volleyProjectile).1 := rfl
    rw [hu, h]
    norm_num [volleyProjectile, List.set, SCORE_WRONG_HIT]

theorem wrong_hit_resolution_witness :
    (stepProjectile (1/100)
        { drones := [decoyDrone32], ammo := 8, score := 0, shahedActive := true }
        volleyProjectile).1 =
      { drones := [decoyDrone32].set 0
          { decoyDrone32 with state := DroneState.falling, animTimer := 0 }
        ammo := 8
        score := 0 + SCORE_WRONG_HIT
        shahedActive := true } :=
  wrong_hit_resolution.1 (1/100)
    { drones := [decoyDrone32], ammo := 8, score := 0, shahedActive := true }
    volleyProjectile decoyDrone32 rfl (by decide) (by decide) rfl rfl rfl rfl
    (by norm_num [projHits, moveProjectile, volleyProjectile, decoyDrone32, targetDrone42,
      droneCenterX, droneCenterY, DRONE_TEXTURE_SIZE, DRONE_SCALE, PROJECTILE_HIT_RADIUS])

/-- Claim C4: a projectile colliding with its target drone while that drone
is already Exploding only deactivates itself: ammo, score, shahedActive and
all drone fields are unchanged.  Consequently, of two projectiles reaching
the same Flying target drone in the same UpdateProjectiles pass, only the
first processed registers the score/ammo change; the second is a no-op
deactivation against the now-Exploding drone. -/
theorem no_double_scoring :
    (∀ (dt : ℚ) (st : TickState) (p : Projectile) (d : Drone),
      p.active = true → 0 ≤ p.targetDroneIndex → p.targetDroneIndex < (MAX_DRONES : Int) →
      st.drones.get? p.targetDroneIndex.toNat = some d →
      d.active = true → d.state = DroneState.exploding →
      projHits (moveProjectile dt p) d = true →
      (stepProjectile dt st p).1 = st ∧ (stepProjectile dt st p).2.active = false) ∧
    (∀ (dt : ℚ) (st : TickState) (p q : Projectile) (d : Drone),
      p.active = true → q.active = true →
      q.targetDroneIndex = p.targetDroneIndex →
      0 ≤ p.targetDroneIndex → p.targetDroneIndex < (MAX_DRONES : Int) →
      st.drones.get? p.targetDroneIndex.toNat = some d →
      d.active = true → d.state = DroneState.flying → d.isShahed = true →
      projHits (moveProjectile dt p) d = true →
      projHits (moveProjectile dt q) d = true →
      (UpdateProjectiles dt [p, q] st).2 =
        { drones := st.drones.set p.targetDroneIndex.toNat
            { d with state := DroneState.exploding, animTimer := 0 }
          ammo := min (st.ammo + HIT_REWARD) MAX_AMMO
          score := st.score + SCORE_CORRECT_HIT
          shahedActive := false } ∧
      ∀ r ∈ (UpdateProjectiles dt [p, q] st).1, r.active = false) := by
  constructor
  · intro dt st p d hp h0 h15 hd hact hexp hhit
    exact stepProjectile_exploding_noop dt st p d hp h0 h15 hd hact hexp hhit
  · intro dt st p q d hp hq hqt h0 h15 hd hact hfly hsh hhitp hhitq
    have step1 := stepProjectile_correct_hit dt st p d hp h0 h15 hd hact hfly hsh hhitp
    set st1 := (stepProjectile dt st p).1 with hst1
    have hd1 : st1.drones.get? p.targetDroneIndex.toNat =
        some { d with state := DroneState.exploding, animTimer := 0 } := by
      rw [step1.1]
      simp only []
      rw [List.get?_eq_getElem?, List.getElem?_set_self', ← List.get?_eq_getElem?, hd]
      rfl
    have hq0 : 0 ≤ q.targetDroneIndex := by rw [hqt]; exact h0
    have hq15 : q.targetDroneIndex < (MAX_DRONES : Int) := by rw [hqt]; exact h15
    have hdq : st1.drones.get? q.targetDroneIndex.toNat =
        some { d with state := DroneState.exploding, animTimer := 0 } := by
      rw [hqt]; exact hd1
    have hhitq2 : projHits (moveProjectile dt q)
        { d with state := DroneState.exploding, animTimer := 0 } = true := by
      rw [projHits_stateUpdate]; exact hhitq
    have step2 := stepProjectile_exploding_noop dt st1 q
      { d with state := DroneState.exploding, animTimer := 0 }
      hq hq0 hq15 hdq hact rfl hhitq2
    have hun : UpdateProjectiles dt [p, q] st =
        ((stepProjectile dt st p).2 :: (stepProjectile dt st1 q).2 :: [],
          (stepProjectile dt st1 q).1) := rfl
    constructor
    · rw [hun]
      simp only []
      rw [step2.1, step1.1]
    · intro r hr
      rw [hun] at hr
      simp only [List.mem_cons, List.mem_singleton, List.not_mem_nil, or_false] at hr
      rcases hr with h | h
      · rw [h]; exact step1.2
      · rw [h]; exact step2.2

theorem no_double_scoring_witness :
    ((stepProjectile (1/100)
        { drones := [{ targetDrone42 with state := DroneState.exploding }],
          ammo := 8, score := 0, shahedActive := false }
        volleyProjectile).1 =
      { drones := [{ targetDrone42 with state := DroneState.exploding }],
        ammo := 8, score := 0, shahedActive := false }) ∧
    (UpdateProjectiles (1/100) [volleyProjectile, volleyProjectile2]
        { drones := [targetDrone42], ammo := 8, score := 0, shahedActive := true }).2 =
      { drones := [targetDrone42].set 0
          { targetDrone42 with state := DroneState.exploding, animTimer := 0 }
        ammo := min (8 + HIT_REWARD) MAX_AMMO
        score := 0 + SCORE_CORRECT_HIT
        shahedActive := false } := by
  constructor
  · exact (no_double_scoring.1 (1/100)
      { drones := [{ targetDrone42 with state := DroneState.exploding }],
        ammo := 8, score := 0, shahedActive := false }
      volleyProjectile { targetDrone42 with state := DroneState.exploding }
      rfl (by decide) (by decide) rfl rfl rfl
      (by norm_num [projHits, moveProjectile, volleyProjectile, targetDrone42, droneCenterX,
        droneCenterY, DRONE_TEXTURE_SIZE, DRONE_SCALE, PROJECTILE_HIT_RADIUS])).1
  · exact (no_double_scoring.2 (1/100)
      { drones := [targetDrone42], ammo := 8, score := 0, shahedActive := true }
      volleyProjectile volleyProjectile2 targetDrone42
      rfl rfl rfl (by decide) (by decide) rfl rfl rfl rfl
      (by norm_num [projHits, moveProjectile, volleyProjectile, targetDrone42, droneCenterX,
        droneCenterY, DRONE_TEXTURE_SIZE, DRONE_SCALE, PROJECTILE_HIT_RADIUS])
      (by norm_num [projHits, moveProjectile, volleyProjectile, volleyProjectile2,
        targetDrone42, droneCenterX, droneCenterY, DRONE_TEXTURE_SIZE, DRONE_SCALE,
        PROJECTILE_HIT_RADIUS])).1

/-- Claim C6 counterexample: a correctly hit target drone does NOT pass
through Falling before Exploding.  At this concrete input the drone is
Flying before the projectile step and Exploding immediately after the
single atomic step that registers the correct hit, so the claimed
Flying → Falling → Exploding sequence does not occur on the hit path. -/
theorem lifecycle_cex :
    targetDrone42.state = DroneState.flying ∧
    targetDrone42.isShahed = true ∧
    (stepProjectile (1/100)
        { drones := [targetDrone42], ammo := 8, score := 0, shahedActive := true }
        volleyProjectile).1.drones.map Drone.state = [DroneState.exploding] := by
  refine ⟨rfl, rfl, ?_⟩
  have h := (stepProjectile_correct_hit (1/100)
    { drones := [targetDrone42], ammo := 8, score := 0, shahedActive := true }
    volleyProjectile targetDrone42 rfl (by decide) (by decide) rfl rfl rfl rfl
    (by norm_num [projHits, moveProjectile, volleyProjectile, targetDrone42, droneCenterX,
      droneCenterY, DRONE_TEXTURE_SIZE, DRONE_SCALE, PROJECTILE_HIT_RADIUS])).1
  rw [h]
  norm_num [volleyProjectile, List.set]

/-- Claim C6 (amended): the drone state machine realises exactly these
paths: a correctly hit target goes Flying → Exploding (directly, skipping
Falling) and then Exploding → Dead after EXPLOSION_DURATION; a wrongly hit
drone goes Flying → Falling and a falling non-target dies on reaching the
ground band or the left edge (Flying → Falling → Dead); a target that
crosses the left boundary while Flying starts Falling, and a falling
target explodes on reaching the ground (Flying → Falling → Exploding →
Dead). -/
theorem drone_lifecycle :
    (∀ (dt : ℚ) (st : TickState) (p : Projectile) (d : Drone),
      p.active = true → 0 ≤ p.targetDroneIndex → p.targetDroneIndex < (MAX_DRONES : Int) →
      st.drones.get? p.targetDroneIndex.toNat = some d →
      d.active = true → d.state = DroneState.flying → d.isShahed = true →
      projHits (moveProjectile dt p) d = true →
      (stepProjectile dt st p).1.drones = st.drones.set p.targetDroneIndex.toNat
        { d with state := DroneState.exploding, animTimer := 0 }) ∧
    (∀ (dt : ℚ) (st : TickState) (p : Projectile) (d : Drone),
      p.active = true → 0 ≤ p.targetDroneIndex → p.targetDroneIndex < (MAX_DRONES : Int) →
      st.drones.get? p.targetDroneIndex.toNat = some d →
      d.active = true → d.state = DroneState.flying → d.isShahed = false →
      projHits (moveProjectile dt p) d = true →
      (stepProjectile dt st p).1.drones = st.drones.set p.targetDroneIndex.toNat
        { d with state := DroneState.falling, animTimer := 0 }) ∧
    (∀ (dt : ℚ) (d : Drone),
      d.active = true → d.state = DroneState.flying → d.isShahed = true →
      d.posX - DRONE_SPEED * dt < DRONE_LEFT_BOUNDARY →
      stepDrone dt d = { d with
        posX := d.posX - DRONE_SPEED * dt
        state := DroneState.falling
        animTimer := 0 }) ∧
    (∀ (dt : ℚ) (d : Drone),
      d.active = true → d.state = DroneState.falling → d.isShahed = true →
      GROUND_LEVEL ≤ d.posY + DRONE_FALL_SPEED * dt →
      stepDrone dt d = { d with
        posX := d.posX - DRONE_SPEED * DRONE_FALL_HORIZONTAL_MULTIPLIER * dt
        posY := d.posY + DRONE_FALL_SPEED * dt + GROUND_EXPLOSION_OFFSET
        state := DroneState.exploding
        animTimer := 0 }) ∧
    (∀ (dt : ℚ) (d : Drone),
      d.active = true → d.state = DroneState.falling → d.isShahed = false →
      (NEAR_GROUND_LEVEL ≤ d.posY + DRONE_FALL_SPEED * dt ∨
        d.posX - DRONE_SPEED * DRONE_FALL_HORIZONTAL_MULTIPLIER * dt < OFF_SCREEN_LEFT) →
      stepDrone dt d = { d with
        posX := d.posX - DRONE_SPEED * DRONE_FALL_HORIZONTAL_MULTIPLIER * dt
        posY := d.posY + DRONE_FALL_SPEED * dt
        animTimer := d.animTimer + dt
        state := DroneState.dead }) ∧
    (∀ (dt : ℚ) (d : Drone),
      d.active = true → d.state = DroneState.exploding →
      EXPLOSION_DURATION < d.animTimer + dt →
      stepDrone dt d = { d with
        animTimer := d.animTimer + dt
        state := DroneState.dead }) := by
  refine ⟨?_, ?_, ?_, ?_, ?_, ?_⟩
  · intro dt st p d hp h0 h15 hd hact hfly hsh hhit
    rw [(stepProjectile_correct_hit dt st p d hp h0 h15 hd hact hfly hsh hhit).1]
  · intro dt st p d hp h0 h15 hd hact hfly hsh hhit
    rw [(stepProjectile_wrong_hit dt st p d hp h0 h15 hd hact hfly hsh hhit).1]
  · intro dt d hact hfly hsh hb
    simp [stepDrone, hact, hfly, hsh, hb]
  · intro dt d hact hfall hsh hg
    simp [stepDrone, hact, hfall, hsh, hg]
  · intro dt d hact hfall hsh hg
    simp only [stepDrone, hact, hfall, hsh]
    norm_num
    rcases hg with hg | hg
    · simp [hg]
    · simp [hg]
  · intro dt d hact hexp ht
    simp [stepDrone, hact, hexp, ht]

theorem drone_lifecycle_witness :
    ((stepProjectile (1/100)
        { drones := [targetDrone42], ammo := 8, score := 0, shahedActive := true }
        volleyProjectile).1.drones = [targetDrone42].set 0
          { targetDrone42 with state := DroneState.exploding, animTimer := 0 }) ∧
    ((stepProjectile (1/100)
        { drones := [decoyDrone32], ammo := 8, score := 0, shahedActive := true }
        volleyProjectile).1.drones = [decoyDrone32].set 0
          { decoyDrone32 with state := DroneState.falling, animTimer := 0 }) ∧
    (stepDrone (1/10) { targetDrone42 with posX := 105 } =
      { { targetDrone42 with posX := 105 } with
        posX := ({ targetDrone42 with posX := 105 } : Drone).posX - DRONE_SPEED * (1/10)
        state := DroneState.falling
        animTimer := 0 }) ∧
    (stepDrone (1/10) { targetDrone42 with state := DroneState.falling, posY := 390 } =
      { { targetDrone42 with state := DroneState.falling, posY := 390 } with
        posX := targetDrone42.posX - DRONE_SPEED * DRONE_FALL_HORIZONTAL_MULTIPLIER * (1/10)
        posY := (390 : ℚ) + DRONE_FALL_SPEED * (1/10) + GROUND_EXPLOSION_OFFSET
        state := DroneState.exploding
        animTimer := 0 }) ∧
    (stepDrone (1/10) { decoyDrone32 with state := DroneState.falling, posY := 490 } =
      { { decoyDrone32 with state := DroneState.falling, posY := 490 } with
        posX := decoyDrone32.posX - DRONE_SPEED * DRONE_FALL_HORIZONTAL_MULTIPLIER * (1/10)
        posY := (490 : ℚ) + DRONE_FALL_SPEED * (1/10)
        animTimer := decoyDrone32.animTimer + 1/10
        state := DroneState.dead }) ∧
    (stepDrone (1/10) { targetDrone42 with state := DroneState.exploding, animTimer := 1/4 } =
      { { targetDrone42 with state := DroneState.exploding, animTimer := 1/4 } with
        animTimer := (1/4 : ℚ) + 1/10
        state := DroneState.dead }) := by
  refine ⟨?_, ?_, ?_, ?_, ?_, ?_⟩
  · exact drone_lifecycle.1 (1/100)
      { drones := [targetDrone42], ammo := 8, score := 0, shahedActive := true }
      volleyProjectile targetDrone42 rfl (by decide) (by decide) rfl rfl rfl rfl
      (by norm_num [projHits, moveProjectile, volleyProjectile, targetDrone42, droneCenterX,
        droneCenterY, DRONE_TEXTURE_SIZE, DRONE_SCALE, PROJECTILE_HIT_RADIUS])
  · exact drone_lifecycle.2.1 (1/100)
      { drones := [decoyDrone32], ammo := 8, score := 0, shahedActive := true }
      volleyProjectile decoyDrone32 rfl (by decide) (by decide) rfl rfl rfl rfl
      (by norm_num [projHits, moveProjectile, volleyProjectile, decoyDrone32, targetDrone42,
        droneCenterX, droneCenterY, DRONE_TEXTURE_SIZE, DRONE_SCALE, PROJECTILE_HIT_RADIUS])
  · exact drone_lifecycle.2.2.1 (1/10) { targetDrone42 with posX := 105 } rfl rfl rfl
      (by norm_num [targetDrone42, DRONE_SPEED, DRONE_LEFT_BOUNDARY])
  · exact drone_lifecycle.2.2.2.1 (1/10)
      { targetDrone42 with state := DroneState.falling, posY := 390 } rfl rfl rfl
      (by norm_num [targetDrone42, DRONE_FALL_SPEED, GROUND_LEVEL])
  · exact drone_lifecycle.2.2.2.2.1 (1/10)
      { decoyDrone32 with state := DroneState.falling, posY := 490 } rfl rfl rfl
      (Or.inl (by norm_num [decoyDrone32, targetDrone42, DRONE_FALL_SPEED, NEAR_GROUND_LEVEL]))
  · exact drone_lifecycle.2.2.2.2.2 (1/10)
      { targetDrone42 with state := DroneState.exploding, animTimer := 1/4 } rfl rfl
      (by norm_num [EXPLOSION_DURATION])

-- Helper lemmas about decoy generation

theorem genDecoyAux_spec (rng : Nat → Nat) (correct : Int) (bad : List Int) :
    ∀ fuel k, ∃ j, j ≤ fuel ∧ genDecoyAux rng correct bad fuel k =
      (correct + decoyOffset (rng (k + j)), k + j + 1) := by
  intro fuel
  induction fuel with
  | zero =>
    intro k
    exact ⟨0, Nat.le_refl 0, by simp [genDecoyAux]⟩
  | succ n ih =>
    intro k
    by_cases h : (correct + decoyOffset (rng k)) ∈ bad
    · obtain ⟨j, hj, hres⟩ := ih (k + 1)
      refine ⟨j + 1, by omega, ?_⟩
      rw [show k + (j + 1) = k + 1 + j by omega]
      simp only [genDecoyAux, h, if_pos]
      exact hres
    · exact ⟨0, by omega, by simp [genDecoyAux, h]⟩

theorem genDecoyAux_exhaust (rng : Nat → Nat) (correct : Int) (bad : List Int) :
    ∀ fuel k, (genDecoyAux rng correct bad fuel k).1 ∈ bad →
      ∀ j, j ≤ fuel → correct + decoyOffset (rng (k + j)) ∈ bad := by
  intro fuel
  induction fuel with
  | zero =>
    intro k hmem j hj
    interval_cases j
    simp only [genDecoyAux] at hmem
    rw [Nat.add_zero]
    exact hmem
  | succ n ih =>
    intro k hmem j hj
    by_cases h : (correct + decoyOffset (rng k)) ∈ bad
    · match j with
      | 0 =>
        rw [Nat.add_zero]
        exact h
      | j' + 1 =>
        rw [show k + (j' + 1) = k + 1 + j' by omega]
        refine ih (k + 1) ?_ j' (by omega)
        simp only [genDecoyAux, h, if_pos] at hmem
        exact hmem
    · exfalso
      apply h
      simp only [genDecoyAux, h, if_neg, if_false] at hmem

theorem genAnswersAux_shape (rng : Nat → Nat) (correct : Int) (existing : List Int)
    (ci : Int) : ∀ n i k acc, ∀ a ∈ (genAnswersAux rng correct existing ci n i k acc).1,
      a ∈ acc ∨ a = correct ∨ ∃ r : Nat, a = correct + decoyOffset r := by
  intro n
  induction n with
  | zero =>
    intro i k acc a ha
    simp only [genAnswersAux] at ha
    exact Or.inl ha
  | succ m ih =>
    intro i k acc a ha
    simp only [genAnswersAux] at ha
    by_cases hci : (i : Int) = ci
    · rw [if_pos hci] at ha
      rcases ih (i + 1) k (acc ++ [correct]) a ha with hmem | rest
      · rcases List.mem_append.mp hmem with h | h
        · exact Or.inl h
        · simp only [List.mem_singleton] at h
          exact Or.inr (Or.inl h)
      · exact Or.inr rest
    · rw [if_neg hci] at ha
      rcases ih (i + 1) (genDecoyAux rng correct (existing ++ acc) 49 k).2
          (acc ++ [(genDecoyAux rng correct (existing ++ acc) 49 k).1]) a ha with hmem | rest
      · rcases List.mem_append.mp hmem with h | h
        · exact Or.inl h
        · simp only [List.mem_singleton] at h
          obtain ⟨j, _, hres⟩ := genDecoyAux_spec rng correct (existing ++ acc) 49 k
          refine Or.inr (Or.inr ⟨rng (k + j), ?_⟩)
          rw [h, hres]
      · exact Or.inr rest

/-- Claim C5: every decoy answer candidate generated during a spawn wave is
correctAnswer + offset with the offset in [-10,10] excluding 0, a raw roll
of zero being re-rolled to 5 (one of the two values ±5); a candidate that
collides with a forbidden answer (an existing on-screen answer or one
already chosen earlier in the same wave) is rejected and re-rolled, bounded
by the attempt budget (50 in SpawnDrones, which calls genDecoyAux with
fuel 49): a colliding answer is only returned when every candidate in the
budget collided, and every answer produced for a wave is an element of the
accumulator, the correct answer itself, or correctAnswer + decoyOffset r
for some roll r. -/
theorem decoy_generation :
    (∀ r : Nat, decoyOffset r ≠ 0 ∧ -10 ≤ decoyOffset r ∧ decoyOffset r ≤ 10) ∧
    (∀ r : Nat, ((r : Int) % 20 - 10 = 0) → decoyOffset r = 5) ∧
    (∀ (rng : Nat → Nat) (correct : Int) (bad : List Int) (fuel k : Nat),
      ∃ j, j ≤ fuel ∧ genDecoyAux rng correct bad fuel k =
        (correct + decoyOffset (rng (k + j)), k + j + 1)) ∧
    (∀ (rng : Nat → Nat) (correct : Int) (bad : List Int) (fuel k : Nat),
      (genDecoyAux rng correct bad fuel k).1 ∈ bad →
      ∀ j, j ≤ fuel → correct + decoyOffset (rng (k + j)) ∈ bad) ∧
    (∀ (rng : Nat → Nat) (correct : Int) (existing : List Int) (ci : Int)
        (n i k : Nat) (acc : List Int),
      ∀ a ∈ (genAnswersAux rng correct existing ci n i k acc).1,
        a ∈ acc ∨ a = correct ∨ ∃ r : Nat, a = correct + decoyOffset r) := by
  refine ⟨?_, ?_, genDecoyAux_spec, genDecoyAux_exhaust, genAnswersAux_shape⟩
  · intro r
    simp only [decoyOffset]
    split_ifs with h
    · refine ⟨?_, ?_, ?_⟩ <;> omega
    · refine ⟨?_, ?_, ?_⟩ <;> omega
  · intro r h
    simp [decoyOffset, h]

theorem decoy_generation_witness :
    (decoyOffset 3 ≠ 0 ∧ -10 ≤ decoyOffset 3 ∧ decoyOffset 3 ≤ 10) ∧
    decoyOffset 10 = 5 ∧
    (∃ j, j ≤ 0 ∧ genDecoyAux rngId 42 [] 0 0 =
      (42 + decoyOffset (rngId (0 + j)), 0 + j + 1)) ∧
    (42 : Int) + decoyOffset ((fun _ => 0) (0 + 0)) ∈ ([32] : List Int) ∧
    ((42 : Int) ∈ ([] : List Int) ∨ (42 : Int) = 42 ∨
      ∃ r : Nat, (42 : Int) = 42 + decoyOffset r) := by
  refine ⟨decoy_generation.1 3, decoy_generation.2.1 10 (by decide),
    decoy_generation.2.2.1 rngId 42 [] 0 0, ?_, ?_⟩
  · exact decoy_generation.2.2.2.1 (fun _ => 0) 42 [32] 0 0 (by decide) 0 (by omega)
  · exact decoy_generation.2.2.2.2 rngId 42 [] 1 2 0 0 [] 42 (by decide)

-- Helper lemmas about equation generation

theorem genOnce_snd (rng : Nat → Nat) (level : Nat) (allowNegative : Bool) (k : Nat) :
    (genOnce rng level allowNegative k).2 = k + 3 := rfl

theorem genOnce_div_shape (rng : Nat → Nat) (level : Nat) (allowNegative : Bool) (k : Nat) :
    (genOnce rng level allowNegative k).1.operation = '/' →
    (genOnce rng level allowNegative k).1.num1 =
      (genOnce rng level allowNegative k).1.correctAnswer *
        (genOnce rng level allowNegative k).1.num2 ∧
    0 < (genOnce rng level allowNegative k).1.num2 := by
  intro h
  simp only [genOnce] at h ⊢
  split_ifs at h ⊢ <;>
    first
      | (refine ⟨rfl, ?_⟩
         show (0 : Int) < 2 + ((rng (k + 2) % 9 : Nat) : Int)
         positivity)
      | simp at h

theorem genEquationLoop_spec (rng : Nat → Nat) (level : Nat) (allowNegative : Bool)
    (ds : List Drone) : ∀ fuel k,
    (∃ j, j ≤ fuel ∧
      genEquationLoop rng level allowNegative ds fuel k =
        genOnce rng level allowNegative (k + 3 * j) ∧
      ∀ i, i < j → badEquation ds (genOnce rng level allowNegative (k + 3 * i)).1 = true) ∧
    (badEquation ds (genEquationLoop rng level allowNegative ds fuel k).1 = true →
      ∀ i, i ≤ fuel → badEquation ds (genOnce rng level allowNegative (k + 3 * i)).1 = true) := by
  intro fuel
  induction fuel with
  | zero =>
    intro k
    constructor
    · exact ⟨0, Nat.le_refl 0, by rw [Nat.mul_zero, Nat.add_zero]; rfl,
        fun i hi => absurd hi (by omega)⟩
    · intro hbad i hi
      interval_cases i
      rw [Nat.mul_zero, Nat.add_zero]
      exact hbad
  | succ n ih =>
    intro k
    by_cases hb : badEquation ds (genOnce rng level allowNegative k).1 = true
    · have hloop : genEquationLoop rng level allowNegative ds (n + 1) k =
          genEquationLoop rng level allowNegative ds n (k + 3) := by
        simp [genEquationLoop, hb, genOnce_snd]
      constructor
      · obtain ⟨j, hj, heq, hearly⟩ := (ih (k + 3)).1
        refine ⟨j + 1, by omega, ?_, ?_⟩
        · rw [hloop, show k + 3 * (j + 1) = k + 3 + 3 * j by ring]
          exact heq
        · intro i hi
          match i with
          | 0 =>
            rw [Nat.mul_zero, Nat.add_zero]
            exact hb
          | i' + 1 =>
            rw [show k + 3 * (i' + 1) = k + 3 + 3 * i' by ring]
            exact hearly i' (by omega)
      · intro hbad i hi
        match i with
        | 0 =>
          rw [Nat.mul_zero, Nat.add_zero]
          exact hb
        | i' + 1 =>
          rw [hloop] at hbad
          rw [show k + 3 * (i' + 1) = k + 3 + 3 * i' by ring]
          exact (ih (k + 3)).2 hbad i' (by omega)
    · have hloop : genEquationLoop rng level allowNegative ds (n + 1) k =
          genOnce rng level allowNegative k := by
        simp [genEquationLoop, hb]
      constructor
      · refine ⟨0, by omega, ?_, fun i hi => absurd hi (by omega)⟩
        rw [hloop, Nat.mul_zero, Nat.add_zero]
      · intro hbad i hi
        rw [hloop] at hbad
        exact absurd hbad hb

/-- Claim C8: every equation returned by GenerateNewEquation with the
division operator satisfies num1 mod num2 = 0 and num1 / num2 =
correctAnswer, because division candidates are constructed answer-first:
the answer and the divisor are drawn, then num1 = correctAnswer * num2. -/
theorem division_exact :
    ∀ (rng : Nat → Nat) (level : Nat) (ds : List Drone) (allowNegative : Bool) (k : Nat),
      (GenerateNewEquation rng level ds allowNegative k).1.operation = '/' →
      0 < (GenerateNewEquation rng level ds allowNegative k).1.num2 ∧
      (GenerateNewEquation rng level ds allowNegative k).1.num1 =
        (GenerateNewEquation rng level ds allowNegative k).1.correctAnswer *
          (GenerateNewEquation rng level ds allowNegative k).1.num2 ∧
      (GenerateNewEquation rng level ds allowNegative k).1.num1 %
        (GenerateNewEquation rng level ds allowNegative k).1.num2 = 0 ∧
      (GenerateNewEquation rng level ds allowNegative k).1.num1 /
        (GenerateNewEquation rng level ds allowNegative k).1.num2 =
        (GenerateNewEquation rng level ds allowNegative k).1.correctAnswer := by
  intro rng level ds allowNegative k h
  obtain ⟨j, _, heq, _⟩ := (genEquationLoop_spec rng level allowNegative ds 20 k).1
  have hG : GenerateNewEquation rng level ds allowNegative k =
      genOnce rng level allowNegative (k + 3 * j) := heq
  rw [hG] at h ⊢
  obtain ⟨hshape, hpos⟩ := genOnce_div_shape rng level allowNegative (k + 3 * j) h
  refine ⟨hpos, hshape, ?_, ?_⟩
  · rw [hshape, mul_comm]
    exact Int.mul_emod_right _ _
  · rw [hshape]
    exact Int.mul_ediv_cancel _ (by omega)

theorem division_exact_witness :
    0 < (GenerateNewEquation rngDiv 3 [] false 0).1.num2 ∧
    (GenerateNewEquation rngDiv 3 [] false 0).1.num1 =
      (GenerateNewEquation rngDiv 3 [] false 0).1.correctAnswer *
        (GenerateNewEquation rngDiv 3 [] false 0).1.num2 ∧
    (GenerateNewEquation rngDiv 3 [] false 0).1.num1 %
      (GenerateNewEquation rngDiv 3 [] false 0).1.num2 = 0 ∧
    (GenerateNewEquation rngDiv 3 [] false 0).1.num1 /
      (GenerateNewEquation rngDiv 3 [] false 0).1.num2 =
      (GenerateNewEquation rngDiv 3 [] false 0).1.correctAnswer :=
  division_exact rngDiv 3 [] false 0 (by decide)

/-- Claim C9: the triviality/duplicate-answer rejection loop of
GenerateNewEquation performs at most 20 regeneration attempts (21 candidate
draws in all, each consuming 3 rand values) and always terminates returning
an equation: the result is always the j-th candidate for some j ≤ 20, every
earlier candidate was trivial or a duplicate, and a trivial-or-duplicate
result is returned only when every candidate within the bound was
trivial or a duplicate (the last candidate is accepted anyway). -/
theorem equation_retry_bound :
    ∀ (rng : Nat → Nat) (level : Nat) (ds : List Drone) (allowNegative : Bool) (k : Nat),
      (∃ j, j ≤ 20 ∧
        GenerateNewEquation rng level ds allowNegative k =
          genOnce rng level allowNegative (k + 3 * j) ∧
        ∀ i, i < j → badEquation ds (genOnce rng level allowNegative (k + 3 * i)).1 = true) ∧
      (badEquation ds (GenerateNewEquation rng level ds allowNegative k).1 = true →
        ∀ i, i ≤ 20 → badEquation ds (genOnce rng level allowNegative (k + 3 * i)).1 = true) := by
  intro rng level ds allowNegative k
  exact genEquationLoop_spec rng level allowNegative ds 20 k

-- Helper lemmas about SpawnDrones target counting

theorem flyingShahedCount_nil : flyingShahedCount [] = 0 := rfl

theorem flyingShahedCount_cons (d : Drone) (ds : List Drone) :
    flyingShahedCount (d :: ds) =
      (if isFlyingShahed d = true then 1 else 0) + flyingShahedCount ds := by
  simp only [flyingShahedCount, List.filter_cons]
  split_ifs with h
  · simp only [List.length_cons]
    omega
  · omega

theorem isFlyingActive_setShahed (d : Drone) (b : Bool) :
    isFlyingActive { d with isShahed := b } = isFlyingActive d := rfl

theorem isFlyingShahed_setShahed (d : Drone) (b : Bool) :
    isFlyingShahed { d with isShahed := b } = (isFlyingActive d && b) := rfl

theorem flyingShahedCount_promote (correct : Int) :
    ∀ ds : List Drone, flyingShahedCount (promoteExisting correct ds) =
      List.count correct (existingAnswers ds) := by
  intro ds
  induction ds with
  | nil => rfl
  | cons d t ih =>
    have hpc : promoteExisting correct (d :: t) =
        (if isFlyingActive d = true
          then { d with isShahed := decide (d.answer = correct) } else d) ::
          promoteExisting correct t := by
      simp [promoteExisting]
    rw [hpc]
    by_cases hfa : isFlyingActive d = true
    · rw [if_pos hfa, flyingShahedCount_cons]
      have he : existingAnswers (d :: t) = d.answer :: existingAnswers t := by
        simp [existingAnswers, List.filter_cons, hfa]
      rw [he, List.count_cons, isFlyingShahed_setShahed, hfa, ih]
      by_cases hans : d.answer = correct
      · rw [decide_eq_true hans, beq_iff_eq.mpr hans]
        simp
        exact Nat.add_comm 1 _
      · rw [decide_eq_false hans, beq_eq_false_iff_ne.mpr hans]
        simp
    · rw [if_neg hfa, flyingShahedCount_cons]
      have he : existingAnswers (d :: t) = existingAnswers t := by
        simp [existingAnswers, List.filter_cons, hfa]
      have hds : isFlyingShahed d = false := by
        simp only [isFlyingShahed, isFlyingActive] at hfa ⊢
        rcases Bool.and_eq_false_iff.mp (Bool.eq_false_iff.mpr hfa) with h | h <;>
          simp [h]
      rw [he, hds, ih]
      simp

theorem count_existing_zero (correct : Int) :
    ∀ ds : List Drone, foundExistingShahed correct ds = false →
      List.count correct (existingAnswers ds) = 0 := by
  intro ds
  induction ds with
  | nil => intro _; rfl
  | cons d t ih =>
    intro hf
    simp only [foundExistingShahed, List.any_cons, Bool.or_eq_false_iff,
      Bool.and_eq_false_iff] at hf
    have ht : List.count correct (existingAnswers t) = 0 := by
      apply ih
      simp only [foundExistingShahed]
      exact hf.2
    by_cases hfa : isFlyingActive d = true
    · have he : existingAnswers (d :: t) = d.answer :: existingAnswers t := by
        simp [existingAnswers, List.filter_cons, hfa]
      rw [he, List.count_cons, ht]
      rcases hf.1 with h | h
      · rw [hfa] at h
        simp at h
      · have : (d.answer == correct) = false := by
          rw [beq_eq_false_iff_ne]
          intro heq
          rw [heq] at h
          simp at h
        rw [this]
        simp
    · have he : existingAnswers (d :: t) = existingAnswers t := by
        simp [existingAnswers, List.filter_cons, hfa]
      rw [he]
      exact ht

theorem spawnInto_count_le (rng : Nat → Nat) (answers : List Int) (ci : Int) :
    ∀ (ds : List Drone) (s k : Nat),
      flyingShahedCount (spawnInto rng answers ci ds s k).1 ≤
        flyingShahedCount ds + (if (s : Int) ≤ ci then 1 else 0) := by
  intro ds
  induction ds with
  | nil =>
    intro s k
    simp only [spawnInto, flyingShahedCount_nil]
    omega
  | cons d t ih =>
    intro s k
    by_cases hc : s < answers.length ∧ (d.active = false ∨ d.state = DroneState.dead)
    · simp only [spawnInto, if_pos hc]
      rw [flyingShahedCount_cons, flyingShahedCount_cons]
      have hd0 : isFlyingShahed d = false := by
        rcases hc.2 with h | h
        · simp [isFlyingShahed, h]
        · simp [isFlyingShahed, h]
      have hnd : isFlyingShahed (newDrone (DRONE_SPAWN_X + (s : ℚ) * DRONE_SPAWN_SPACING)
          (DRONE_SPAWN_Y_MIN + ((rng k % DRONE_SPAWN_Y_RANGE : Nat) : ℚ))
          (answers.getD s 0) (decide ((s : Int) = ci))) = decide ((s : Int) = ci) := by
        simp [isFlyingShahed, isFlyingActive, newDrone]
      rw [hd0, hnd]
      have hrest := ih (s + 1) (k + 1)
      by_cases hs : (s : Int) = ci
      · have hnn : ¬ (((s + 1 : Nat) : Int) ≤ ci) := by push_cast; omega
        rw [if_neg hnn] at hrest
        rw [decide_eq_true hs, if_pos (le_of_eq hs)]
        simp only [if_true]
        omega
      · rw [decide_eq_false hs]
        simp only [Bool.false_eq_true, if_false]
        split_ifs at hrest ⊢ <;> omega
    · simp only [spawnInto, if_neg hc]
      rw [flyingShahedCount_cons, flyingShahedCount_cons]
      have hrest := ih s k
      split_ifs at hrest ⊢ <;> omega

theorem spawnInto_promote_le (rng : Nat → Nat) (correct : Int) (ds : List Drone)
    (answers : List Int) (ci : Int) (kk : Nat)
    (hci : foundExistingShahed correct ds = true → ci = -1)
    (hcount : List.count correct (existingAnswers ds) ≤ 1) :
    flyingShahedCount (spawnInto rng answers ci (promoteExisting correct ds) 0 kk).1 ≤ 1 := by
  by_cases hf : foundExistingShahed correct ds = true
  · have hc1 : ci = -1 := hci hf
    subst hc1
    have hb := spawnInto_count_le rng answers (-1) (promoteExisting correct ds) 0 kk
    rw [flyingShahedCount_promote] at hb
    rw [if_neg (by norm_num : ¬ (((0 : Nat) : Int) ≤ -1))] at hb
    omega
  · have hb := spawnInto_count_le rng answers ci (promoteExisting correct ds) 0 kk
    rw [flyingShahedCount_promote] at hb
    have hzero : List.count correct (existingAnswers ds) = 0 :=
      count_existing_zero correct ds (by simpa using hf)
    rw [hzero] at hb
    split_ifs at hb <;> omega

/-- Claim C2 counterexample: a pool holding two Flying drones that both
display 15 (a configuration the bounded decoy-retry exhaustion permits)
has no Flying target before SpawnDrones, and after SpawnDrones with
correctAnswer 15 the retroactive-promotion scan marks BOTH drones
isShahed, leaving two Flying targets — not "exactly 0 or 1, never more". -/
theorem spawn_two_targets_cex :
    flyingShahedCount cexPool = 0 ∧
    flyingShahedCount (SpawnDrones rngId 0 15 cexPool).1 = 2 := by
  constructor
  · decide
  · decide

/-- Claim C2 (amended): after a SpawnDrones call whose pre-existing Flying
drones display pairwise-distinct answers, the number of Flying drones with
isShahed = true is at most 1; and the retroactive-promotion scan un-marks
every stale Flying target whose displayed answer differs from the new
equation's correct answer. -/
theorem spawn_at_most_one_target (rng : Nat → Nat) (k : Nat) (correct : Int)
    (ds : List Drone) (hnd : (existingAnswers ds).Nodup) :
    flyingShahedCount (SpawnDrones rng k correct ds).1 ≤ 1 ∧
    ∀ d ∈ promoteExisting correct ds,
      isFlyingActive d = true → d.answer ≠ correct → d.isShahed = false := by
  constructor
  · exact spawnInto_promote_le rng correct ds _ _ _
      (fun hf => by simp [hf])
      (List.nodup_iff_count_le_one.mp hnd correct)
  · intro d hd hfa hne
    simp only [promoteExisting, List.mem_map] at hd
    obtain ⟨d0, _, hd0eq⟩ := hd
    by_cases hf0 : isFlyingActive d0 = true
    · rw [if_pos hf0] at hd0eq
      subst hd0eq
      exact decide_eq_false hne
    · rw [if_neg hf0] at hd0eq
      subst hd0eq
      exact absurd hfa hf0

theorem spawn_at_most_one_target_witness :
    flyingShahedCount (SpawnDrones rngId 0 42 (List.replicate 15 freeSlot)).1 ≤ 1 ∧
    ∀ d ∈ promoteExisting 42 (List.replicate 15 freeSlot),
      isFlyingActive d = true → d.answer ≠ 42 → d.isShahed = false :=
  spawn_at_most_one_target rngId 0 42 (List.replicate 15 freeSlot) (by decide)

theorem equation_retry_bound_witness :
    (∃ j, j ≤ 20 ∧
      GenerateNewEquation rngExhaust 1 [] false 0 =
        genOnce rngExhaust 1 false (0 + 3 * j) ∧
      ∀ i, i < j → badEquation [] (genOnce rngExhaust 1 false (0 + 3 * i)).1 = true) ∧
    badEquation [] (genOnce rngExhaust 1 false (0 + 3 * 0)).1 = true := by
  refine ⟨(equation_retry_bound rngExhaust 1 [] false 0).1, ?_⟩
  exact (equation_retry_bound rngExhaust 1 [] false 0).2 (by decide) 0 (by omega)

-- Helper lemmas about the ammo bookkeeping

theorem resolveHit_ammo (st : TickState) (idx : Nat) (d : Drone) :
    (resolveHit st idx d).ammo = st.ammo ∨
    (resolveHit st idx d).ammo =
      (if MAX_AMMO < st.ammo + HIT_REWARD then MAX_AMMO else st.ammo + HIT_REWARD) := by
  unfold resolveHit
  split
  · split
    · exact Or.inr rfl
    · exact Or.inl rfl
  · exact Or.inl rfl

theorem collideStep_ammo (st : TickState) (p : Projectile) :
    (collideStep st p).1.ammo = st.ammo ∨
    (collideStep st p).1.ammo =
      (if MAX_AMMO < st.ammo + HIT_REWARD then MAX_AMMO else st.ammo + HIT_REWARD) := by
  simp only [collideStep]
  split
  · split
    · split
      · split
        · exact resolveHit_ammo st _ _
        · exact Or.inl rfl
      · exact Or.inl rfl
    · exact Or.inl rfl
  · exact Or.inl rfl

theorem stepProjectile_ammo (dt : ℚ) (st : TickState) (p : Projectile) :
    (stepProjectile dt st p).1.ammo = st.ammo ∨
    (stepProjectile dt st p).1.ammo =
      (if MAX_AMMO < st.ammo + HIT_REWARD then MAX_AMMO else st.ammo + HIT_REWARD) := by
  simp only [stepProjectile]
  split
  · exact collideStep_ammo st _
  · exact Or.inl rfl

theorem stepProjectile_ammo_bounds (dt : ℚ) (st : TickState) (p : Projectile)
    (h0 : 0 ≤ st.ammo) (h20 : st.ammo ≤ MAX_AMMO) :
    0 ≤ (stepProjectile dt st p).1.ammo ∧ (stepProjectile dt st p).1.ammo ≤ MAX_AMMO := by
  rcases stepProjectile_ammo dt st p with h | h <;> rw [h]
  · exact ⟨h0, h20⟩
  · simp only [MAX_AMMO, HIT_REWARD] at h0 h20 ⊢
    split_ifs <;> omega

theorem UpdateProjectiles_ammo_bounds (dt : ℚ) :
    ∀ (ps : List Projectile) (st : TickState), 0 ≤ st.ammo → st.ammo ≤ MAX_AMMO →
      0 ≤ (UpdateProjectiles dt ps st).2.ammo ∧
      (UpdateProjectiles dt ps st).2.ammo ≤ MAX_AMMO := by
  intro ps
  induction ps with
  | nil =>
    intro st h0 h20
    exact ⟨h0, h20⟩
  | cons p rest ih =>
    intro st h0 h20
    have hstep := stepProjectile_ammo_bounds dt st p h0 h20
    exact ih (stepProjectile dt st p).1 hstep.1 hstep.2

/-- Claim C10: in every state of the game loop reachable through the
operations that write ammo — the initial value INITIAL_AMMO, a shot (only
fired when SHOT_COST ≤ ammo, then deducting SHOT_COST), a projectile
update tick (whose correct-hit reward is capped at MAX_AMMO), and the
restart reset to INITIAL_AMMO — the invariant 0 ≤ ammo ≤ MAX_AMMO holds;
in particular ammo never becomes negative. -/
theorem ammo_invariant : ∀ a : Int, GameReach a → 0 ≤ a ∧ a ≤ MAX_AMMO := by
  intro a h
  induction h with
  | init =>
    constructor <;> simp [INITIAL_AMMO, MAX_AMMO]
  | fire _ hge ih =>
    simp only [SHOT_COST, MAX_AMMO] at hge ih ⊢
    omega
  | tick dt ps ds sc sa _ ih =>
    exact UpdateProjectiles_ammo_bounds dt ps _ ih.1 ih.2
  | restart _ _ =>
    constructor <;> simp [INITIAL_AMMO, MAX_AMMO]

theorem ammo_invariant_witness :
    0 ≤ INITIAL_AMMO ∧ INITIAL_AMMO ≤ MAX_AMMO :=
  ammo_invariant INITIAL_AMMO GameReach.init

/-- Claim C7: targetDroneIndex is a raw slot index with no generation
check, so an in-flight projectile whose original target died (slot 0 freed)
collides with and affects the unrelated drone that a later SpawnDrones
wave placed into the same slot: in this execution the reused slot holds a
fresh Flying decoy showing 32, and the stale projectile knocks it into
Falling and charges the wrong-hit penalty to the score. -/
theorem stale_slot_hit :
    freeSlot.active = false ∧
    staleProjectile.active = true ∧
    staleProjectile.targetDroneIndex = 0 ∧
    c7pool.get? 0 = some c7drone ∧
    c7drone.answer = 32 ∧
    c7drone.isShahed = false ∧
    c7drone.state = DroneState.flying ∧
    c7drone.active = true ∧
    (UpdateProjectiles (1/50) [staleProjectile]
        { drones := c7pool, ammo := 4, score := 0, shahedActive := true }).2 =
      { drones := c7pool.set 0 { c7drone with state := DroneState.falling, animTimer := 0 }
        ammo := 4
        score := 0 + SCORE_WRONG_HIT
        shahedActive := true } := by
  refine ⟨rfl, rfl, rfl, rfl, rfl, rfl, rfl, rfl, ?_⟩
  have hx : c7drone.posX = 1200 := by
    rw [show c7drone.posX =
      DRONE_SPAWN_X + ((0 : Nat) : ℚ) * DRONE_SPAWN_SPACING from rfl]
    norm_num [DRONE_SPAWN_X, DRONE_SPAWN_SPACING]
  have hy : c7drone.posY = 80 := by
    rw [show c7drone.posY =
      DRONE_SPAWN_Y_MIN + ((rngC7 3 % DRONE_SPAWN_Y_RANGE : Nat) : ℚ) from rfl]
    norm_num [DRONE_SPAWN_Y_MIN, DRONE_SPAWN_Y_RANGE, rngC7]
  have hhit : projHits (moveProjectile (1/50) staleProjectile) c7drone = true := by
    simp only [projHits, moveProjectile, staleProjectile, droneCenterX, droneCenterY,
      hx, hy, DRONE_TEXTURE_SIZE, DRONE_SCALE, PROJECTILE_HIT_RADIUS]
    norm_num
  have h := (stepProjectile_wrong_hit (1/50)
    { drones := c7pool, ammo := 4, score := 0, shahedActive := true }
    staleProjectile c7drone rfl (by decide) (by decide) rfl rfl rfl rfl hhit).1
  have hu : (UpdateProjectiles (1/50) [staleProjectile]
      { drones := c7pool, ammo := 4, score := 0, shahedActive := true }).2 =
    (stepProjectile (1/50)
      { drones := c7pool, ammo := 4, score := 0, shahedActive := true }
      staleProjectile).1 := rfl
  rw [hu, h]
  rfl

end Sky
